import Mathlib

/-!
Verification of the audit orchestration backend (src/backend/server.py) against
its natural-language specification.

The Python source is shallowly embedded: Python dicts with a fixed key set
become structures (an `Option` field models a key that some code paths leave
absent), Python lists become `List`, Python numbers become `ℚ`/`ℕ`, and a
fallible operation becomes `Except String` where the error carries the Python
exception message.  A Python `set` has no specified iteration order (string
hashes are randomized per process), so every place the source converts a set
to a list is parameterized by an enumeration function `enum` constrained only
to produce a permutation of the set's elements; any fact the source actually
guarantees must hold for every such `enum`.
-/

/-- One value of the `audits` mapping of a lighthouse result: the source reads
`numericValue`, `score` and `details.overallSavingsBytes` from it, each with a
`.get(..., default)` chain.  The nested `details` dict is flattened here to the
single field the source ever reads. -/
structure AuditRec where
  numericValue : Option ℚ := none
  score : Option ℚ := none
  detailsOverallSavingsBytes : Option ℚ := none
  title : Option String := none
deriving DecidableEq

/-- One value of the `categories` mapping of a lighthouse result. -/
structure CatEntry where
  score : Option ℚ := none
  title : Option String := none
deriving DecidableEq

/-- The default `{}` that `audits.get(metric, {})` produces for an absent
metric id: every inner `.get` then returns its default. -/
def emptyAuditRec : AuditRec := {}

/-- The default `{}` that `categories.get(name, {})` produces. -/
def emptyCatEntry : CatEntry := {}

/-- The dict returned by `run_lighthouse_analysis` / `get_basic_page_metrics`
(server.py:237-244, 285-292, 311-328, 379-396).  Every code path populates the
four category scores, `categories` and `audits`; the `error` key is present
only in the static fallback dict, `method` only in the basic-analysis dict,
and no code path ever inserts a `tier` key (the field stays `none`). -/
structure ProbeResult where
  performance : ℚ
  accessibility : ℚ
  best_practices : ℚ
  seo : ℚ
  categories : List (String × CatEntry)
  audits : List (String × AuditRec)
  error : Option String := none
  method : Option String := none
  tier : Option String := none
deriving DecidableEq

/- ----------------------------------------------------------------------
Score Aggregator: calculate_performance_metrics (server.py:863-897)
---------------------------------------------------------------------- -/

/-- The part of the return dict of `calculate_performance_metrics` the claims
are about (server.py:888-897). -/
structure PerformanceMetrics where
  overall_score : ℚ
  grade : String
  keywords_found : ℕ
  backlinks_found : ℕ
deriving DecidableEq

/-- Input dict of `calculate_performance_metrics`: the function only reads the
four scores, each via `.get(key, 0)`, so an absent key is an `Option`. -/
structure ScoreDict where
  performance : Option ℚ := none
  accessibility : Option ℚ := none
  best_practices : Option ℚ := none
  seo : Option ℚ := none
deriving DecidableEq

/-- Python `round(x, 2)` on the exact rational value: scale by 100, round to
the nearest integer, scale back.  (Python rounds float ties to even; no input
used in any theorem below sits on a tie, so the tie-breaking direction of
`round` is irrelevant here.) -/
def round2 (q : ℚ) : ℚ := (round (q * 100) : ℤ) / 100

/-- server.py:863-897.  `scores` is always the four-element list built at
lines 867-872, so the `if scores else 0` guard at line 874 is the division by
4.  Note the returned `overall_score` is the rounded mean (line 889) while the
grade at lines 877-886 is computed from the unrounded `overall_score`
variable. -/
def calculate_performance_metrics (d : ScoreDict) (keywords_count backlinks_count : ℕ) :
    PerformanceMetrics :=
  let scores : List ℚ :=
    [d.performance.getD 0, d.accessibility.getD 0, d.best_practices.getD 0, d.seo.getD 0]
  let overall_score : ℚ := scores.sum / scores.length
  let grade : String :=
    if overall_score ≥ 0.9 then "A"
    else if overall_score ≥ 0.75 then "B"
    else if overall_score ≥ 0.6 then "C"
    else if overall_score ≥ 0.4 then "D"
    else "F"
  { overall_score := round2 overall_score
    grade := grade
    keywords_found := keywords_count
    backlinks_found := backlinks_count }

/-- The grade step function exactly as the spec words it (inclusive lower
bounds 0.90/0.75/0.60/0.40). -/
def specGrade (s : ℚ) : String :=
  if s ≥ 0.9 then "A"
  else if s ≥ 0.75 then "B"
  else if s ≥ 0.6 then "C"
  else if s ≥ 0.4 then "D"
  else "F"

/-- The unrounded mean of the four category scores of a score dict. -/
def meanScore (d : ScoreDict) : ℚ :=
  (d.performance.getD 0 + d.accessibility.getD 0 + d.best_practices.getD 0 + d.seo.getD 0) / 4

/- ----------------------------------------------------------------------
GET /api/analysis/{id}: get_analysis (server.py:1302-1311)
---------------------------------------------------------------------- -/

/-- Outcome of a FastAPI route: a 200 body, or an HTTPException carried to the
client as a response with that status code. -/
inductive RouteOutcome (α : Type) where
  | ok (body : α)
  | httpError (status : ℕ) (detail : String)
deriving DecidableEq

/-- server.py:1302-1311.  The stored analyses collection is modelled as an
association list from id to stored report (the report contents are opaque for
this route, so a type parameter).  The `try` body either returns the found
report or raises `HTTPException(404)`; the `except Exception` clause catches
every `Exception` — and `fastapi.HTTPException` is an `Exception` subclass —
and re-raises it as `HTTPException(500, str(e))`, where `str` of an
HTTPException is "<status>: <detail>". -/
def get_analysis (store : List (String × α)) (analysis_id : String) : RouteOutcome α :=
  let tryBody : Except (ℕ × String) α :=
    match store.lookup analysis_id with
    | some result => Except.ok result
    | none => Except.error (404, "Analysis not found")
  match tryBody with
  | Except.ok result => RouteOutcome.ok result
  | Except.error e => RouteOutcome.httpError 500 (toString e.1 ++ ": " ++ e.2)

/- ----------------------------------------------------------------------
Heuristic probe: get_basic_page_metrics (server.py:330-400)
---------------------------------------------------------------------- -/

/-- What the browser-automation collaborator measures for the heuristic tier
(server.py:338-355): everything except `is_https`, which the source computes
from the url string itself. -/
structure PageMeasurement where
  url : String
  load_time : ℚ
  title : String
  meta_description : String
  h1_count : ℕ
  img_without_alt : ℕ
deriving DecidableEq

/-- server.py:355 — `url.startswith('https://')`. -/
def isHttpsUrl (url : String) : Bool :=
  "https://".toList.isPrefixOf url.toList

/-- The spec's clamp to the unit interval. -/
def clamp01 (q : ℚ) : ℚ := max 0 (min 1 q)

/-- server.py:360 — `max(0, min(1, (5000 - load_time) / 5000))`. -/
def basicPerformanceScore (p : PageMeasurement) : ℚ :=
  max 0 (min 1 ((5000 - p.load_time) / 5000))

/-- server.py:361-369 — start from 1.0 and subtract per structural defect
(the checks `if not title` / `if not meta_description` are Python falsiness of
a string, i.e. emptiness). -/
def basicSeoScore (p : PageMeasurement) : ℚ :=
  (((1 - (if p.title = "" then 0.3 else 0))
    - (if p.meta_description = "" then 0.2 else 0))
    - (if p.h1_count = 0 then 0.2 else 0))
    - (if p.h1_count > 1 then 0.1 else 0)

/-- server.py:371 — `max(0, 1 - (img_without_alt * 0.1))`. -/
def basicAccessibilityScore (p : PageMeasurement) : ℚ :=
  max 0 (1 - (p.img_without_alt : ℚ) * 0.1)

/-- server.py:372 — `0.9 if is_https else 0.5`. -/
def basicBestPracticesScore (p : PageMeasurement) : ℚ :=
  if isHttpsUrl p.url then 0.9 else 0.5

/-- The dict built at server.py:379-396 from one successful heuristic
measurement. -/
def basicScores (p : PageMeasurement) : ProbeResult :=
  { performance := basicPerformanceScore p
    accessibility := basicAccessibilityScore p
    best_practices := basicBestPracticesScore p
    seo := basicSeoScore p
    categories :=
      [("performance", { score := some (basicPerformanceScore p),
                         title := some "Performance (Basic Analysis)" }),
       ("accessibility", { score := some (basicAccessibilityScore p),
                           title := some "Accessibility (Basic Analysis)" }),
       ("best-practices", { score := some (basicBestPracticesScore p),
                            title := some "Best Practices (Basic Analysis)" }),
       ("seo", { score := some (basicSeoScore p), title := some "SEO (Basic Analysis)" })]
    audits :=
      [("first-contentful-paint", { numericValue := some (p.load_time * 0.6),
                                    title := some "First Contentful Paint (Estimated)" }),
       ("speed-index", { numericValue := some (p.load_time * 0.8),
                         title := some "Speed Index (Estimated)" }),
       ("largest-contentful-paint", { numericValue := some (p.load_time * 0.9),
                                      title := some "Largest Contentful Paint (Estimated)" })]
    method := some "basic_analysis" }

/- ----------------------------------------------------------------------
Competitive Differ data model (server.py:1000-1047)
---------------------------------------------------------------------- -/

/-- The per-site structural scan dict returned by
`analyze_single_site_for_comparison` (server.py:1024-1033); the `headings`
sub-dict is flattened to its three lists. -/
structure SiteScan where
  url : String := ""
  title : String := ""
  meta_description : String := ""
  keywords : List String := []
  backlinks : List String := []
  h1 : List String := []
  h2 : List String := []
  h3 : List String := []
  word_count : ℕ := 0
  internal_links : ℕ := 0
deriving DecidableEq

/- ----------------------------------------------------------------------
identify_content_gaps (server.py:1130-1159)
---------------------------------------------------------------------- -/

/-- Integer rendering of a rational for the `{:.0f}` message format
(server.py:1140); the claims never inspect a tie, so the rounding direction is
irrelevant. -/
def fmtNoDecimals (q : ℚ) : String := toString (round q : ℤ)

/-- Python division, which raises `ZeroDivisionError` on a zero divisor. -/
def pyDiv (a b : ℚ) : Except String ℚ :=
  if b = 0 then Except.error "ZeroDivisionError: division by zero" else Except.ok (a / b)

/-- server.py:1130-1159.  The body computes the mean competitor word count
first (line 1137) — dividing by `len(competitor_data)` — and only then
evaluates the heading/meta rules; any exception from the body is swallowed by
the catch-all at lines 1157-1159, which returns `[]`. -/
def identify_content_gaps (primary : SiteScan) (competitor_data : List SiteScan) :
    List String :=
  let body : Except String (List String) := do
    let primary_word_count := (primary.word_count : ℚ)
    let avg ← pyDiv ((competitor_data.map (fun c => (c.word_count : ℚ))).sum)
      (competitor_data.length : ℚ)
    let gaps : List String :=
      if primary_word_count < avg then
        ["Content length gap: Your page has " ++ toString primary.word_count ++
          " words vs competitor average of " ++ fmtNoDecimals avg ++ " words"]
      else []
    let gaps := if primary.h1.length = 0 then
        gaps ++ ["Missing H1 tag - critical for SEO"] else gaps
    let gaps := if primary.h2.length < 3 then
        gaps ++ ["Few H2 tags - consider adding more section headings"] else gaps
    let gaps := if primary.meta_description = "" then
        gaps ++ ["Missing meta description"] else gaps
    pure gaps
  match body with
  | Except.ok gaps => gaps
  | Except.error _ => []

/- ----------------------------------------------------------------------
Tiered Audit Runner: run_lighthouse_analysis (server.py:174-328)
---------------------------------------------------------------------- -/

/-- A parsed lighthouse JSON document, reduced to the two mappings the source
reads (`lighthouse_data.get('categories', {})` / `.get('audits', {})`). -/
structure Scorecard where
  categories : List (String × CatEntry) := []
  audits : List (String × AuditRec) := []
deriving DecidableEq

/-- The effectful environment of one `run_lighthouse_analysis` call.
`tempFile` is the `NamedTemporaryFile` creation at server.py:178-179 (its
name on success).  `fullProbe` / `reducedProbe` bundle the whole outcome of
the tier-1 (server.py:182-227) and tier-2 (server.py:254-278) subprocess
runs: `ok` is a zero exit with a parseable scorecard, `error` is any of
timeout, nonzero exit, or unreadable output.  `basicMetrics` is the tier-3
Playwright measurement of `get_basic_page_metrics` (server.py:330-400). -/
structure LighthouseEnv where
  tempFile : Except String String
  fullProbe : Except String Scorecard
  reducedProbe : Except String Scorecard
  basicMetrics : Except String PageMeasurement

/-- server.py:237-244 and 285-292: category scores read from the parsed
scorecard with `.get(name, {}).get('score', 0)` chains. -/
def scorecardResult (d : Scorecard) : ProbeResult :=
  { performance := ((d.categories.lookup "performance").getD emptyCatEntry).score.getD 0
    accessibility := ((d.categories.lookup "accessibility").getD emptyCatEntry).score.getD 0
    best_practices := ((d.categories.lookup "best-practices").getD emptyCatEntry).score.getD 0
    seo := ((d.categories.lookup "seo").getD emptyCatEntry).score.getD 0
    categories := d.categories
    audits := d.audits }

/-- The fixed fallback dict returned when every tier failed
(server.py:311-328).  Its degradation marker is the `error` key; it carries no
`tier` key. -/
def staticFallbackResult : ProbeResult :=
  { performance := 0.5
    accessibility := 0.7
    best_practices := 0.6
    seo := 0.5
    categories :=
      [("performance", { score := some 0.5, title := some "Performance (Fallback)" }),
       ("accessibility", { score := some 0.7, title := some "Accessibility (Fallback)" }),
       ("best-practices", { score := some 0.6, title := some "Best Practices (Fallback)" }),
       ("seo", { score := some 0.5, title := some "SEO (Fallback)" })]
    audits :=
      [("first-contentful-paint", { numericValue := some 3000,
                                    title := some "First Contentful Paint (Estimated)" }),
       ("speed-index", { numericValue := some 4000,
                         title := some "Speed Index (Estimated)" }),
       ("largest-contentful-paint", { numericValue := some 5000,
                                      title := some "Largest Contentful Paint (Estimated)" })]
    error := some "Lighthouse analysis unavailable - using estimated values" }

/-- server.py:174-328, the ranked fallback chain.  One subtlety is modelled
exactly as the control flow has it: when the `NamedTemporaryFile` creation
itself raises, the outer `except` block (server.py:246) runs with `temp_file`
unbound, the inner `try` raises `NameError` while building `simple_cmd`
(server.py:258), that `NameError` is caught at server.py:294 — but the
`finally` clause at server.py:297-300 references `temp_file` again and the
resulting `NameError` propagates out of the whole function.  Every other tier
failure advances to the next tier, ending in the static fallback. -/
def run_lighthouse_analysis (env : LighthouseEnv) : Except String ProbeResult :=
  match env.tempFile with
  | Except.error _ => Except.error "NameError: name \x27temp_file\x27 is not defined"
  | Except.ok _ =>
    match env.fullProbe with
    | Except.ok data => Except.ok (scorecardResult data)
    | Except.error _ =>
      match env.reducedProbe with
      | Except.ok data => Except.ok (scorecardResult data)
      | Except.error _ =>
        match env.basicMetrics with
        | Except.ok p => Except.ok (basicScores p)
        | Except.error _ => Except.ok staticFallbackResult

/- ----------------------------------------------------------------------
Screenshot Capturer: generate_responsive_screenshots (server.py:402-475)
---------------------------------------------------------------------- -/

/-- The fixed viewport profiles, server.py:408-413. -/
def screen_sizes : List (String × ℕ × ℕ) :=
  [("Mobile", 375, 667), ("Tablet", 768, 1024), ("Laptop", 1366, 768), ("Desktop", 1920, 1080)]

/-- One entry of the screenshots list (a Python dict of strings; the `error`
key is present only on failure entries). -/
structure ScreenshotEntry where
  device : String
  width : String
  height : String
  screenshot : String
  error : Option String := none
deriving DecidableEq

/-- The effectful environment of one `generate_responsive_screenshots` call:
the browser launch / `new_page` outcome (server.py:418-419), the per-viewport
goto-and-screenshot outcome — `ok` carries the base64-encoded image —
(server.py:423-428), and the `browser.close()` outcome (server.py:447). -/
structure BrowserEnv where
  launchError : Option String
  capture : ℕ → Except String String
  closeError : Option String

/-- A successful per-viewport dict, server.py:430-435. -/
def successEntry (sz : String × ℕ × ℕ) (data : String) : ScreenshotEntry :=
  { device := sz.1, width := toString sz.2.1, height := toString sz.2.2,
    screenshot := "data:image/png;base64," ++ data }

/-- A failure dict: empty image data plus an error message
(server.py:439-445, 452-458, 463-469). -/
def failureEntry (sz : String × ℕ × ℕ) (msg : String) : ScreenshotEntry :=
  { device := sz.1, width := toString sz.2.1, height := toString sz.2.2,
    screenshot := "", error := some msg }

/-- server.py:402-475.  A per-viewport failure appends a failure entry and the
loop continues.  If the browser session itself fails, the handler at
server.py:448-458 appends one failure entry per viewport — and it does so ON
TOP of whatever the loop already appended, because `screenshots` is a single
list mutated throughout: a launch failure happens before the loop (4 entries
total), but a `browser.close()` failure happens after it (8 entries total). -/
def generate_responsive_screenshots (env : BrowserEnv) : List ScreenshotEntry :=
  match env.launchError with
  | some e =>
      screen_sizes.map (fun sz => failureEntry sz ("Browser launch failed: " ++ e))
  | none =>
    let loopEntries := screen_sizes.enum.map (fun p =>
      match env.capture p.1 with
      | Except.ok data => successEntry p.2 data
      | Except.error e => failureEntry p.2 e)
    match env.closeError with
    | none => loopEntries
    | some e =>
        loopEntries ++ screen_sizes.map (fun sz => failureEntry sz ("Browser launch failed: " ++ e))

/- ----------------------------------------------------------------------
Python sets, and the Competitive Differ keyword difference
(server.py:1112-1128)
---------------------------------------------------------------------- -/

/-- Inserting one element into a Python set, tracked in canonical
first-insertion order (the canonical order is only a representation of the
set's CONTENT; iteration order is handled by the `enum` parameter below). -/
def pySetInsert (acc : List String) (w : String) : List String :=
  if w ∈ acc then acc else acc ++ [w]

/-- The content of `set(ws)`, canonically ordered by first occurrence.  The
same fold also models dict-key creation order for the keyword frequency dict,
where Python dicts DO preserve insertion order. -/
def firsts (ws : List String) : List String := ws.foldl pySetInsert []

/-- server.py:1117-1119: `competitor_keywords.update(competitor['keywords'])`
over all competitors, starting from the empty set. -/
def unionKeywords (competitor_data : List SiteScan) : List String :=
  competitor_data.foldl (fun s c => c.keywords.foldl pySetInsert s) []

/-- server.py:1112-1128.  `enum` stands for the unspecified iteration order of
`list(competitor_keywords - primary_keywords)`: CPython string hashing is
randomized per process, so the source guarantees only that `enum` yields each
element of the set exactly once.  The set difference itself is the filter. -/
def extract_competitive_keywords (enum : List String → List String)
    (primary_analysis : SiteScan) (competitor_data : List SiteScan) : List String :=
  let primary_keywords := firsts primary_analysis.keywords
  let competitor_keywords := unionKeywords competitor_data
  let competitive_keywords :=
    enum (competitor_keywords.filter (fun w => !(decide (w ∈ primary_keywords))))
  competitive_keywords.take 20

/- ----------------------------------------------------------------------
Content Scanner, backlink half: analyze_backlinks (server.py:518-538)
---------------------------------------------------------------------- -/

/-- server.py:528 — `href.startswith('http')` (a plain string-prefix test,
not a scheme check). -/
def startsWithHttp (href : String) : Bool := "http".toList.isPrefixOf href.toList

/-- Python `needle in haystack` on strings: substring containment. -/
def pyInStr (needle haystack : String) : Bool :=
  haystack.toList.tails.any (fun t => needle.toList.isPrefixOf t)

/-- Modelled from the spec: the scheme of a URL, i.e. what
`urllib.parse.urlparse(u).scheme` returns — the part before the first colon,
empty when there is no colon.  `urlparse` itself is a stdlib collaborator
outside src/; this definition exists to state what "scheme is http or https"
means in the claim. -/
def urlScheme (u : String) : String :=
  if u.toList.contains ':' then String.mk (u.toList.takeWhile (fun c => c ≠ ':')) else ""

/-- server.py:518-538.  `source_netloc` is `urlparse(url).netloc` of the page
being scanned, `fetch` the outcome of the HTTP fetch and parse: on failure the
except clause returns `[]`; otherwise `hrefs` are the href values of all
anchors and the filter at line 528 keeps those that start with "http" and do
not CONTAIN the netloc as a substring.  `list(set(links))[:10]` is the
enumeration of the deduplicated content, capped at 10, with `enum` again the
unspecified set iteration order. -/
def analyze_backlinks (enum : List String → List String) (source_netloc : String)
    (fetch : Except String (List String)) : List String :=
  match fetch with
  | Except.error _ => []
  | Except.ok hrefs =>
    let links := hrefs.filter (fun href => startsWithHttp href && !(pyInStr source_netloc href))
    (enum (firsts links)).take 10

/- ----------------------------------------------------------------------
Issue Extraction Engine (server.py:540-671)
---------------------------------------------------------------------- -/

/-- One threshold rule: the metric id it reads with `audits.get(metric, {})`,
the firing condition on that record, and the message it appends. -/
structure IssueRule where
  metric : String
  fires : AuditRec → Bool
  message : AuditRec → String

/-- The record `audits.get(metric, {})` yields for a metric id: the stored
record, defaulting to the empty record when the id is absent. -/
def getRec (audits : List (String × AuditRec)) (metric : String) : AuditRec :=
  (audits.lookup metric).getD emptyAuditRec

/-- Interpolation of a numeric audit value into a message; abstracts Python
number formatting (no theorem below inspects the rendered digits). -/
def fmtNum (q : ℚ) : String := toString q.num ++ "/" ++ toString q.den

/-- server.py:546-548. -/
def fcpRule : IssueRule :=
  { metric := "first-contentful-paint"
    fires := fun r => decide (r.numericValue.getD 0 > 2000)
    message := fun r =>
      "First Contentful Paint is slow (" ++ fmtNum (r.numericValue.getD 0) ++ "ms)" }

/-- server.py:551-553. -/
def lcpRule : IssueRule :=
  { metric := "largest-contentful-paint"
    fires := fun r => decide (r.numericValue.getD 0 > 2500)
    message := fun r =>
      "Largest Contentful Paint is slow (" ++ fmtNum (r.numericValue.getD 0) ++ "ms)" }

/-- server.py:556-558. -/
def speedIndexRule : IssueRule :=
  { metric := "speed-index"
    fires := fun r => decide (r.numericValue.getD 0 > 3000)
    message := fun r => "Speed Index is slow (" ++ fmtNum (r.numericValue.getD 0) ++ "ms)" }

/-- server.py:561-563. -/
def clsRule : IssueRule :=
  { metric := "cumulative-layout-shift"
    fires := fun r => decide (r.numericValue.getD 0 > 0.1)
    message := fun r =>
      "Cumulative Layout Shift is high (" ++ fmtNum (r.numericValue.getD 0) ++ ")" }

/-- server.py:566-568 — reads `details.overallSavingsBytes`. -/
def unusedCssRule : IssueRule :=
  { metric := "unused-css-rules"
    fires := fun r => decide (r.detailsOverallSavingsBytes.getD 0 > 10000)
    message := fun _ => "Unused CSS detected - remove unused styles" }

/-- server.py:571-573 — the only performance rule reading `score`, default
1. -/
def imageOptRule : IssueRule :=
  { metric := "uses-optimized-images"
    fires := fun r => decide (r.score.getD 1 < 0.8)
    message := fun _ => "Images are not optimized - compress and serve in modern formats" }

/-- A rule of the shape `audits.get(id, {}).get('score', 1) < 1 ⇒ msg`, used
by every seo / accessibility / best-practices rule (server.py:577-671). -/
def scoreBelowOneRule (metricId msg : String) : IssueRule :=
  { metric := metricId
    fires := fun r => decide (r.score.getD 1 < 1)
    message := fun _ => msg }

/-- The performance rule table, declaration order of server.py:540-575. -/
def perfRules : List IssueRule :=
  [fcpRule, lcpRule, speedIndexRule, clsRule, unusedCssRule, imageOptRule]

/-- The seo rule table, declaration order of server.py:577-612. -/
def seoRules : List IssueRule :=
  [scoreBelowOneRule "meta-description" "Missing or poor meta description",
   scoreBelowOneRule "document-title" "Missing or poor title tag",
   scoreBelowOneRule "heading-order" "Heading elements are not in sequentially-descending order",
   scoreBelowOneRule "image-alt" "Images missing alt text",
   scoreBelowOneRule "robots-txt" "robots.txt issues detected",
   scoreBelowOneRule "hreflang" "hreflang links are not valid"]

/-- The accessibility rule table, declaration order of server.py:614-644. -/
def accessibilityRules : List IssueRule :=
  [scoreBelowOneRule "color-contrast"
      "Background and foreground colors do not have sufficient contrast ratio",
   scoreBelowOneRule "aria-required-attr" "ARIA attributes are missing or invalid",
   scoreBelowOneRule "label" "Form elements do not have associated labels",
   scoreBelowOneRule "keyboard-traps" "Keyboard navigation issues detected",
   scoreBelowOneRule "focus-traps" "Focus is not trapped within modal dialogs"]

/-- The best-practices rule table, declaration order of server.py:646-671. -/
def bestPracticesRules : List IssueRule :=
  [scoreBelowOneRule "is-on-https" "Page is not served over HTTPS",
   scoreBelowOneRule "errors-in-console" "JavaScript errors detected in console",
   scoreBelowOneRule "deprecations" "Uses deprecated APIs",
   scoreBelowOneRule "csp-xss" "Content Security Policy missing or ineffective"]

/-- The shared extractor shape: each source function starts from `issues=[]`
and, in declaration order, appends one message per rule whose threshold test
passes — i.e. an ordered filter of the rule table.  The `audits` argument is
`lighthouse_score.get('audits', {})`; a probe dict with no audits key gives
the empty association list. -/
def runRules (rules : List IssueRule) (audits : List (String × AuditRec)) : List String :=
  (rules.filter (fun r => r.fires (getRec audits r.metric))).map
    (fun r => r.message (getRec audits r.metric))

/-- server.py:540-575. -/
def extract_performance_issues (audits : List (String × AuditRec)) : List String :=
  runRules perfRules audits

/-- server.py:577-612. -/
def extract_seo_issues (audits : List (String × AuditRec)) : List String :=
  runRules seoRules audits

/-- server.py:614-644. -/
def extract_accessibility_issues (audits : List (String × AuditRec)) : List String :=
  runRules accessibilityRules audits

/-- server.py:646-671. -/
def extract_best_practices_issues (audits : List (String × AuditRec)) : List String :=
  runRules bestPracticesRules audits

/- ----------------------------------------------------------------------
Content Scanner, keyword half: analyze_keywords (server.py:477-516)
---------------------------------------------------------------------- -/

/-- The character class `[a-zA-Z]` of the token regex at server.py:497. -/
def isAsciiAlpha (c : Char) : Bool := ('a' ≤ c && c ≤ 'z') || ('A' ≤ c && c ≤ 'Z')

/-- The regex word class `\w` at the ASCII subset relevant after lowering:
letters, digits, underscore.  A `\b` boundary holds exactly between a word
char and a non-word char (or the string edge). -/
def isWordChar (c : Char) : Bool := isAsciiAlpha c || c.isDigit || c = '_'

/-- The matches of `\b[a-zA-Z]{3,}\b` among the maximal same-class runs of
the text (produced by `List.splitBy` on the is-alphabetic class): a maximal
alphabetic run matches iff it is at least 3 long and its neighbouring
characters (when present) are not word characters — a shorter or later match
start inside a run always has a letter on the failing side of the `\b`
boundary, so a run is accepted or rejected wholesale.  `prev` is the
character just before the current run (the last character of the previous
run), `none` at the start of the text. -/
def pickTokens (prev : Option Char) : List (List Char) → List (List Char)
  | [] => []
  | g :: gs =>
    let prevOk := match prev with
      | none => true
      | some p => !(isWordChar p)
    let nextOk := match gs.head?.bind List.head? with
      | none => true
      | some d => !(isWordChar d)
    if g.all isAsciiAlpha && prevOk && nextOk && decide (3 ≤ g.length) then
      g :: pickTokens (some (g.getLastD ' ')) gs
    else
      pickTokens (some (g.getLastD ' ')) gs

/-- server.py:497: lower-case the text (`str.lower`, ASCII model), split it
into maximal same-class character runs, and collect the regex matches as
strings. -/
def tokenize (s : String) : List String :=
  (pickTokens none
    ((s.toList.map Char.toLower).splitBy (fun a b => isAsciiAlpha a == isAsciiAlpha b))).map
    (fun r => String.mk r)

/-- The stop-word set of server.py:500 (content only; membership tests). -/
def stop_words : List String :=
  ["the", "and", "for", "are", "but", "not", "you", "all", "can", "had", "her",
   "was", "one", "our", "out", "day", "get", "has", "him", "his", "how", "man",
   "new", "now", "old", "see", "two", "who", "boy", "did", "its", "let", "put",
   "say", "she", "too", "use"]

/-- server.py:494-502: tokens of `f"{title} {meta} {text}"` with stop words
removed. -/
def analyze_keywords_tokens (title meta body : String) : List String :=
  (tokenize (title ++ " " ++ meta ++ " " ++ body)).filter
    (fun w => !(decide (w ∈ stop_words)))

/-- server.py:505-507: one `keyword_freq[k] = keyword_freq.get(k, 0) + 1`
step.  Python dicts preserve key insertion order: an existing key keeps its
position, a new key is appended with count 1. -/
def bumpFreq (mp : List (String × ℕ)) (w : String) : List (String × ℕ) :=
  if w ∈ mp.map Prod.fst then
    mp.map (fun p => if p.1 = w then (p.1, p.2 + 1) else p)
  else mp ++ [(w, 1)]

/-- The keyword frequency dict as an insertion-ordered association list. -/
def freqList (ws : List String) : List (String × ℕ) := ws.foldl bumpFreq []

/-- Stable insert for descending frequency: the new element goes before the
first element whose count it is ≥ to.  Used below to model Python's
`sorted(items, key=lambda x: x[1], reverse=True)`, which is a STABLE sort
(reverse=True inverts the comparison without reversing ties). -/
def insertDesc (x : String × ℕ) : List (String × ℕ) → List (String × ℕ)
  | [] => [x]
  | y :: ys => if x.2 ≥ y.2 then x :: y :: ys else y :: insertDesc x ys

/-- Stable insertion sort, descending by count.  A stable sort is uniquely
determined by the comparison key, so this yields exactly the list Python's
stable `sorted(..., key=freq, reverse=True)` produces: processing
left-to-right, each element is placed before every equal-count element that
originally followed it. -/
def sortDesc : List (String × ℕ) → List (String × ℕ)
  | [] => []
  | x :: xs => insertDesc x (sortDesc xs)

/-- server.py:477-516, success path (the fetched page parsed into title, meta
description and whole-document text): count frequencies, sort descending
(stably), take the top 20, and keep the words. -/
def analyze_keywords_ok (title meta body : String) : List String :=
  ((sortDesc (freqList (analyze_keywords_tokens title meta body))).take 20).map Prod.fst

/-- server.py:477-516 with the fetch/parse outcome explicit: the except
clause at lines 514-516 turns any failure into `[]`. -/
def analyze_keywords : Except String (String × String × String) → List String
  | Except.error _ => []
  | Except.ok (title, meta, body) => analyze_keywords_ok title meta body

/- ----------------------------------------------------------------------
Basic facts about the Python-set folds
---------------------------------------------------------------------- -/

theorem mem_pySetInsert (acc : List String) (w x : String) :
    x ∈ pySetInsert acc w ↔ x ∈ acc ∨ x = w := by
  unfold pySetInsert
  by_cases h : w ∈ acc
  · rw [if_pos h]
    constructor
    · exact Or.inl
    · rintro (hx | rfl)
      · exact hx
      · exact h
  · rw [if_neg h]
    simp

theorem nodup_pySetInsert (acc : List String) (w : String) (h : acc.Nodup) :
    (pySetInsert acc w).Nodup := by
  unfold pySetInsert
  by_cases hw : w ∈ acc
  · rwa [if_pos hw]
  · rw [if_neg hw]
    simp [List.nodup_append, h, hw]

theorem mem_foldl_pySetInsert (ws : List String) (acc : List String) (x : String) :
    x ∈ ws.foldl pySetInsert acc ↔ x ∈ acc ∨ x ∈ ws := by
  induction ws generalizing acc with
  | nil => simp
  | cons w ws ih =>
    rw [List.foldl_cons, ih, mem_pySetInsert]
    simp only [List.mem_cons]
    tauto

theorem nodup_foldl_pySetInsert (ws : List String) (acc : List String) (h : acc.Nodup) :
    (ws.foldl pySetInsert acc).Nodup := by
  induction ws generalizing acc with
  | nil => exact h
  | cons w ws ih =>
    rw [List.foldl_cons]
    exact ih _ (nodup_pySetInsert _ _ h)

theorem firsts_nodup (ws : List String) : (firsts ws).Nodup :=
  nodup_foldl_pySetInsert ws [] List.nodup_nil

theorem mem_firsts (ws : List String) (x : String) : x ∈ firsts ws ↔ x ∈ ws := by
  unfold firsts
  rw [mem_foldl_pySetInsert]
  simp

theorem unionKeywords_nodup (cs : List SiteScan) : (unionKeywords cs).Nodup := by
  unfold unionKeywords
  suffices h : ∀ acc : List String, acc.Nodup →
      (cs.foldl (fun s c => c.keywords.foldl pySetInsert s) acc).Nodup by
    exact h [] List.nodup_nil
  induction cs with
  | nil => exact fun acc h => h
  | cons c cs ih =>
    intro acc h
    rw [List.foldl_cons]
    exact ih _ (nodup_foldl_pySetInsert _ _ h)

theorem mem_unionKeywords (cs : List SiteScan) (x : String) :
    x ∈ unionKeywords cs ↔ ∃ c ∈ cs, x ∈ c.keywords := by
  unfold unionKeywords
  suffices h : ∀ acc : List String,
      (x ∈ cs.foldl (fun s c => c.keywords.foldl pySetInsert s) acc ↔
        x ∈ acc ∨ ∃ c ∈ cs, x ∈ c.keywords) by
    simpa using h []
  induction cs with
  | nil => simp
  | cons c cs ih =>
    intro acc
    rw [List.foldl_cons, ih, mem_foldl_pySetInsert]
    simp only [List.mem_cons]
    constructor
    · rintro ((hx | hx) | ⟨c2, hc2, hx⟩)
      · exact Or.inl hx
      · exact Or.inr ⟨c, Or.inl rfl, hx⟩
      · exact Or.inr ⟨c2, Or.inr hc2, hx⟩
    · rintro (hx | ⟨c2, (rfl | hc2), hx⟩)
      · exact Or.inl (Or.inl hx)
      · exact Or.inl (Or.inr hx)
      · exact Or.inr ⟨c2, hc2, hx⟩

/- ----------------------------------------------------------------------
Theorems
---------------------------------------------------------------------- -/

/-- C2 (counterexample).  The claim says the grade is a step function of the
returned (rounded) overallScore, "so any two probe results with the same
overallScore receive the same grade".  False: the source grades the unrounded
mean.  Scores (0.9, 0.9, 0.9, 0.9) and (0.9, 0.9, 0.9, 0.892) both yield
overall_score 0.9, but grade "A" versus grade "B". -/
theorem c2_grade_not_function_of_overall_score :
    (calculate_performance_metrics
        { performance := some 0.9, accessibility := some 0.9,
          best_practices := some 0.9, seo := some 0.9 } 0 0).overall_score
      = (calculate_performance_metrics
        { performance := some 0.9, accessibility := some 0.9,
          best_practices := some 0.9, seo := some 0.892 } 0 0).overall_score
    ∧ (calculate_performance_metrics
        { performance := some 0.9, accessibility := some 0.9,
          best_practices := some 0.9, seo := some 0.9 } 0 0).grade = "A"
    ∧ (calculate_performance_metrics
        { performance := some 0.9, accessibility := some 0.9,
          best_practices := some 0.9, seo := some 0.892 } 0 0).grade = "B" := by
  refine ⟨?_, ?_, ?_⟩ <;>
    norm_num [calculate_performance_metrics, round2, round_eq]

/-- C2 (amended).  `overall_score` is the arithmetic mean of the four category
scores rounded to 2 decimals, and the grade is the spec's step function
(inclusive lower bounds 0.90/0.75/0.60/0.40) applied to the UNROUNDED mean, so
any two probe results with the same unrounded mean receive the same grade. -/
theorem c2_overall_score_and_grade (d : ScoreDict) (kc bc : ℕ) :
    (calculate_performance_metrics d kc bc).overall_score = round2 (meanScore d)
    ∧ (calculate_performance_metrics d kc bc).grade = specGrade (meanScore d) := by
  have h : (([d.performance.getD 0, d.accessibility.getD 0,
      d.best_practices.getD 0, d.seo.getD 0] : List ℚ).sum /
      (([d.performance.getD 0, d.accessibility.getD 0,
        d.best_practices.getD 0, d.seo.getD 0] : List ℚ).length : ℚ)) = meanScore d := by
    simp [meanScore]
    ring
  constructor
  · simp only [calculate_performance_metrics, h]
  · simp only [calculate_performance_metrics, h, specGrade]

/-- C3 (code bug).  The claim (and the source's own
`HTTPException(status_code=404)` at server.py:1308) intends a 404 for an
unknown analysis id, but the catch-all `except Exception` at server.py:1310
catches FastAPI's `HTTPException` too and re-raises it with status 500, so a
missing id actually produces a 500 response.  An id present in the store is
returned as the 200 body. -/
theorem c3_get_analysis_missing_id_gives_500 :
    get_analysis ([] : List (String × String)) "missing-id"
      = RouteOutcome.httpError 500 "404: Analysis not found"
    ∧ ∀ (α : Type) (store : List (String × α)) (analysis_id : String),
        match store.lookup analysis_id with
        | some report => get_analysis store analysis_id = RouteOutcome.ok report
        | none => get_analysis store analysis_id
            = RouteOutcome.httpError 500 "404: Analysis not found" := by
  refine ⟨rfl, fun α store analysis_id => ?_⟩
  unfold get_analysis
  cases h : store.lookup analysis_id
  · simp [h]
    rfl
  · simp [h]

/-- C6 (confirmed).  The heuristic tier's category scores
(server.py:360-372): performance is the clamped load-time formula, seo starts
at 1.0 and loses 0.3/0.2/0.2/0.1 for a missing title / missing meta
description / no h1 / more than one h1, accessibility is the clamped
alt-text formula, and best_practices is 0.9 for https urls and 0.5
otherwise. -/
theorem c6_basic_page_metrics_formulas (p : PageMeasurement) :
    (basicScores p).performance = clamp01 ((5000 - p.load_time) / 5000)
    ∧ (basicScores p).seo =
        1 - (if p.title = "" then 0.3 else 0)
          - (if p.meta_description = "" then 0.2 else 0)
          - (if p.h1_count = 0 then 0.2 else 0)
          - (if p.h1_count > 1 then 0.1 else 0)
    ∧ (basicScores p).accessibility = clamp01 (1 - 0.1 * (p.img_without_alt : ℚ))
    ∧ (basicScores p).best_practices = (if isHttpsUrl p.url then (0.9 : ℚ) else 0.5) := by
  refine ⟨rfl, rfl, ?_, rfl⟩
  have hA : (0 : ℚ) ≤ (p.img_without_alt : ℚ) := Nat.cast_nonneg _
  show max 0 (1 - (p.img_without_alt : ℚ) * 0.1) = max 0 (min 1 (1 - 0.1 * _))
  rw [min_eq_right (by linarith)]
  ring_nf

/-- C10 (confirmed, implicit).  With an empty competitor list,
`identify_content_gaps` divides by `len(competitor_data) = 0` before any gap
rule runs; the `ZeroDivisionError` is swallowed by the catch-all at
server.py:1157-1159, so the result is `[]` for every primary scan — even one
with no H1, few H2s and an empty meta description. -/
theorem c10_empty_competitors_yield_no_gaps (primary : SiteScan) :
    identify_content_gaps primary [] = [] := by
  simp [identify_content_gaps, pyDiv]

/-- C1 (counterexample).  When all tiers fail, the returned static fallback
dict does carry the four fixed scores but carries NO `tier` key at all (its
degradation marker is the `error` string), so `tier="static"` is false; and
the "never raises" part also fails on the path where the temporary-file
creation itself raises, which ends in an uncaught `NameError` from the
`finally` clause at server.py:297-300. -/
theorem c1_static_fallback_lacks_tier :
    run_lighthouse_analysis
        { tempFile := Except.ok "/tmp/lh.json",
          fullProbe := Except.error "Lighthouse analysis timed out",
          reducedProbe := Except.error "Lighthouse analysis failed",
          basicMetrics := Except.error "Browser launch failed" }
      = Except.ok staticFallbackResult
    ∧ staticFallbackResult.tier ≠ some "static"
    ∧ (∃ e, run_lighthouse_analysis
        { tempFile := Except.error "no usable temporary file name found",
          fullProbe := Except.error "unreached",
          reducedProbe := Except.error "unreached",
          basicMetrics := Except.error "unreached" } = Except.error e) := by
  refine ⟨rfl, by simp [staticFallbackResult], ⟨_, rfl⟩⟩

/-- C1 (amended).  Provided the temporary-file creation succeeds,
`run_lighthouse_analysis` never raises: every tier failure advances to the
next tier, and when the full probe, reduced probe and heuristic probe all
fail it returns the static fallback verbatim — category scores performance
0.5, accessibility 0.7, best_practices 0.6, seo 0.5 — marked degraded by its
`error` field; the result carries no `tier` key. -/
theorem c1_tiered_runner_never_raises_and_degrades (tmp : String)
    (full reduced : Except String Scorecard) (basic : Except String PageMeasurement) :
    (∃ r, run_lighthouse_analysis
        { tempFile := Except.ok tmp, fullProbe := full,
          reducedProbe := reduced, basicMetrics := basic } = Except.ok r)
    ∧ (∀ e1 e2 e3 : String,
        run_lighthouse_analysis
          { tempFile := Except.ok tmp, fullProbe := Except.error e1,
            reducedProbe := Except.error e2, basicMetrics := Except.error e3 }
          = Except.ok staticFallbackResult)
    ∧ staticFallbackResult.performance = 0.5
    ∧ staticFallbackResult.accessibility = 0.7
    ∧ staticFallbackResult.best_practices = 0.6
    ∧ staticFallbackResult.seo = 0.5
    ∧ staticFallbackResult.error
        = some "Lighthouse analysis unavailable - using estimated values"
    ∧ staticFallbackResult.tier = none := by
  refine ⟨?_, fun e1 e2 e3 => rfl, rfl, rfl, rfl, rfl, rfl, rfl⟩
  cases full with
  | ok d => exact ⟨_, rfl⟩
  | error _ =>
    cases reduced with
    | ok d => exact ⟨_, rfl⟩
    | error _ =>
      cases basic with
      | ok p => exact ⟨_, rfl⟩
      | error _ => exact ⟨_, rfl⟩

/-- C4 (counterexample).  "Returns exactly four entries, always" is false:
when the browser session fails AFTER the viewport loop (a `browser.close()`
error), the session-failure handler at server.py:448-458 appends four
error-tagged entries on top of the four the loop already collected, giving
eight entries. -/
theorem c4_close_failure_yields_eight_entries :
    (generate_responsive_screenshots
      { launchError := none, capture := fun _ => Except.ok "QUJD",
        closeError := some "browser has been closed" }).length = 8 := by
  rfl

/-- C4 (amended).  Provided the browser session does not fail after the
viewport loop, `generate_responsive_screenshots` returns exactly four entries
in the fixed order Mobile 375x667, Tablet 768x1024, Laptop 1366x768, Desktop
1920x1080: the i-th entry depends only on the i-th viewport's capture outcome
(a capture failure yields empty image data and a populated error for that
device only), and a total launch failure yields all four entries error-tagged
rather than raising.  A browser teardown failure after the loop instead
appends four error-tagged entries after the per-viewport ones. -/
theorem c4_screenshots_fixed_order_and_isolation (cap : ℕ → Except String String) :
    (∀ le : Option String,
      (generate_responsive_screenshots
        { launchError := le, capture := cap, closeError := none }).length = 4)
    ∧ (∀ i : Fin 4,
        (generate_responsive_screenshots
          { launchError := none, capture := cap, closeError := none }).get? i.val
          = some (match cap i.val with
            | Except.ok data => successEntry (screen_sizes.getD i.val ("", 0, 0)) data
            | Except.error e => failureEntry (screen_sizes.getD i.val ("", 0, 0)) e))
    ∧ (∀ (le : String) (i : Fin 4),
        (generate_responsive_screenshots
          { launchError := some le, capture := cap, closeError := none }).get? i.val
          = some (failureEntry (screen_sizes.getD i.val ("", 0, 0))
              ("Browser launch failed: " ++ le)))
    ∧ screen_sizes = [("Mobile", 375, 667), ("Tablet", 768, 1024),
        ("Laptop", 1366, 768), ("Desktop", 1920, 1080)] := by
  refine ⟨fun le => ?_, fun i => ?_, fun le i => ?_, rfl⟩
  · cases le <;> rfl
  · match i with
    | ⟨0, _⟩ => rfl
    | ⟨1, _⟩ => rfl
    | ⟨2, _⟩ => rfl
    | ⟨3, _⟩ => rfl
  · match i with
    | ⟨0, _⟩ => rfl
    | ⟨1, _⟩ => rfl
    | ⟨2, _⟩ => rfl
    | ⟨3, _⟩ => rfl

/-- C5 (counterexample).  The claim's "in first-discovery order across
competitors" is false: the source materializes the difference with
`list(set - set)`, whose iteration order is unspecified (hash-randomized), not
first-discovery order.  For primary keywords {a,b} and competitor sets {b,c}
and {c,d}, the first-discovery order is ["c","d"], but a reversed (equally
legal) set enumeration yields ["d","c"]. -/
theorem c5_list_of_set_not_first_discovery_order :
    (∀ l : List String, List.Perm l.reverse l)
    ∧ extract_competitive_keywords (fun l => l.reverse)
        { keywords := ["a", "b"] }
        [{ keywords := ["b", "c"] }, { keywords := ["c", "d"] }] = ["d", "c"]
    ∧ (["d", "c"] : List String) ≠ ["c", "d"] := by
  exact ⟨fun l => l.reverse_perm, rfl, by decide⟩

/-- C5 (amended).  For every primary scan and competitor list,
`extract_competitive_keywords` returns, in an unspecified order (Python set
iteration), at most 20 keywords, each of which occurs in some competitor's
keywords and not in the primary's; whenever the full set difference has at
most 20 elements the result is exactly that set difference (as a set,
independent of which competitor is scanned first), and it is duplicate-free. -/
theorem c5_competitive_keywords_characterization
    (enum : List String → List String) (henum : ∀ l : List String, List.Perm (enum l) l)
    (primary : SiteScan) (competitor_data : List SiteScan) :
    (extract_competitive_keywords enum primary competitor_data).length ≤ 20
    ∧ (extract_competitive_keywords enum primary competitor_data).Nodup
    ∧ (∀ w ∈ extract_competitive_keywords enum primary competitor_data,
        (∃ c ∈ competitor_data, w ∈ c.keywords) ∧ w ∉ primary.keywords)
    ∧ (((unionKeywords competitor_data).filter
          (fun w => !(decide (w ∈ firsts primary.keywords)))).length ≤ 20 →
        List.Perm (extract_competitive_keywords enum primary competitor_data)
          ((unionKeywords competitor_data).filter
            (fun w => !(decide (w ∈ firsts primary.keywords))))) := by
  have hdiffnodup : ((unionKeywords competitor_data).filter
      (fun w => !(decide (w ∈ firsts primary.keywords)))).Nodup :=
    (unionKeywords_nodup competitor_data).filter _
  have hperm := henum ((unionKeywords competitor_data).filter
      (fun w => !(decide (w ∈ firsts primary.keywords))))
  have hE : extract_competitive_keywords enum primary competitor_data
      = (enum ((unionKeywords competitor_data).filter
          (fun w => !(decide (w ∈ firsts primary.keywords))))).take 20 := rfl
  refine ⟨?_, ?_, ?_, ?_⟩
  · rw [hE, List.length_take]
    exact min_le_left _ _
  · rw [hE]
    exact (hperm.nodup_iff.mpr hdiffnodup).sublist (List.take_sublist _ _)
  · intro w hw
    rw [hE] at hw
    have hw3 : w ∈ (unionKeywords competitor_data).filter
        (fun w => !(decide (w ∈ firsts primary.keywords))) :=
      hperm.mem_iff.mp ((List.take_sublist _ _).subset hw)
    rcases List.mem_filter.mp hw3 with ⟨hmem, hp⟩
    simp only [Bool.not_eq_true', decide_eq_false_iff_not] at hp
    refine ⟨(mem_unionKeywords _ _).mp hmem, fun hcontra => ?_⟩
    exact hp ((mem_firsts _ _).mpr hcontra)
  · intro hlen
    rw [hE, List.take_of_length_le]
    · exact hperm
    · rw [hperm.length_eq]
      exact hlen

/-- C5 witness: the amended characterization applied at a concrete
enumeration (the identity, which trivially enumerates each set) and the
spec's own example inputs. -/
theorem c5_competitive_keywords_characterization_witness :
    (extract_competitive_keywords (fun l => l) { keywords := ["a", "b"] }
      [{ keywords := ["b", "c"] }, { keywords := ["c", "d"] }]).length ≤ 20 :=
  (c5_competitive_keywords_characterization (fun l => l) (fun l => List.Perm.refl l)
    { keywords := ["a", "b"] } [{ keywords := ["b", "c"] }, { keywords := ["c", "d"] }]).1

/-- C9 (counterexample).  The source's filter is `href.startswith('http')`
(server.py:528), a plain prefix test, not a scheme check: an anchor whose
scheme is "httpx" — not http or https — is returned. -/
theorem c9_nonhttp_scheme_link_included :
    analyze_backlinks (fun l => l) "example.com" (Except.ok ["httpx://evil.test/"])
      = ["httpx://evil.test/"]
    ∧ urlScheme "httpx://evil.test/" = "httpx"
    ∧ ("httpx" : String) ≠ "http" ∧ ("httpx" : String) ≠ "https" := by
  exact ⟨rfl, by decide, by decide, by decide⟩

/-- C9 (amended).  For every fetched page, `analyze_backlinks` returns only
anchor targets that START WITH the string "http" and do not CONTAIN the
source URL's netloc as a substring, de-duplicated (each target at most once,
order unspecified), capped at 10 entries — the whole filtered set whenever it
has at most 10 elements; on network or parse failure it returns the empty
list rather than raising. -/
theorem c9_backlinks_prefix_filter_dedup_capped
    (enum : List String → List String) (henum : ∀ l : List String, List.Perm (enum l) l)
    (source_netloc : String) :
    (∀ e : String, analyze_backlinks enum source_netloc (Except.error e) = [])
    ∧ ∀ hrefs : List String,
        (analyze_backlinks enum source_netloc (Except.ok hrefs)).length ≤ 10
        ∧ (analyze_backlinks enum source_netloc (Except.ok hrefs)).Nodup
        ∧ (∀ u ∈ analyze_backlinks enum source_netloc (Except.ok hrefs),
            u ∈ hrefs ∧ startsWithHttp u = true ∧ pyInStr source_netloc u = false)
        ∧ ((firsts (hrefs.filter (fun href =>
              startsWithHttp href && !(pyInStr source_netloc href)))).length ≤ 10 →
            List.Perm (analyze_backlinks enum source_netloc (Except.ok hrefs))
              (firsts (hrefs.filter (fun href =>
                startsWithHttp href && !(pyInStr source_netloc href))))) := by
  refine ⟨fun e => rfl, fun hrefs => ?_⟩
  have hperm := henum (firsts (hrefs.filter (fun href =>
      startsWithHttp href && !(pyInStr source_netloc href))))
  have hnodup : (firsts (hrefs.filter (fun href =>
      startsWithHttp href && !(pyInStr source_netloc href)))).Nodup := firsts_nodup _
  have hE : analyze_backlinks enum source_netloc (Except.ok hrefs)
      = (enum (firsts (hrefs.filter (fun href =>
          startsWithHttp href && !(pyInStr source_netloc href))))).take 10 := rfl
  refine ⟨?_, ?_, ?_, ?_⟩
  · rw [hE, List.length_take]
    exact min_le_left _ _
  · rw [hE]
    exact (hperm.nodup_iff.mpr hnodup).sublist (List.take_sublist _ _)
  · intro u hu
    rw [hE] at hu
    have hu3 : u ∈ firsts (hrefs.filter (fun href =>
        startsWithHttp href && !(pyInStr source_netloc href))) :=
      hperm.mem_iff.mp ((List.take_sublist _ _).subset hu)
    have hu4 := (mem_firsts _ _).mp hu3
    rcases List.mem_filter.mp hu4 with ⟨hmem, hp⟩
    simp only [Bool.and_eq_true, Bool.not_eq_true'] at hp
    exact ⟨hmem, hp.1, hp.2⟩
  · intro hlen
    rw [hE, List.take_of_length_le]
    · exact hperm
    · rw [hperm.length_eq]
      exact hlen

/-- C9 witness: the amended characterization applied at the identity
enumeration and a concrete source host. -/
theorem c9_backlinks_prefix_filter_dedup_capped_witness :
    analyze_backlinks (fun l => l) "example.com" (Except.error "ConnectionError") = [] :=
  (c9_backlinks_prefix_filter_dedup_capped (fun l => l) (fun l => List.Perm.refl l)
    "example.com").1 "ConnectionError"

theorem runRules_sublist (rules : List IssueRule) (audits : List (String × AuditRec)) :
    List.Sublist (runRules rules audits)
      (rules.map (fun r => r.message (getRec audits r.metric))) :=
  List.Sublist.map _ (List.filter_sublist rules)

theorem allRules_pass_on_empty :
    ∀ r ∈ perfRules ++ seoRules ++ accessibilityRules ++ bestPracticesRules,
      r.fires emptyAuditRec = false := by
  simp only [perfRules, seoRules, accessibilityRules, bestPracticesRules,
    List.forall_mem_append, List.forall_mem_cons, List.not_mem_nil, false_implies,
    implies_true, and_true]
  simp only [fcpRule, lcpRule, speedIndexRule, clsRule, unusedCssRule, imageOptRule,
    scoreBelowOneRule, emptyAuditRec, Option.getD_none, decide_eq_false_iff_not]
  norm_num

theorem runRules_on_empty_audits (rules : List IssueRule)
    (h : ∀ r ∈ rules, r.fires emptyAuditRec = false) : runRules rules [] = [] := by
  unfold runRules
  rw [List.filter_eq_nil_iff.mpr]
  · rfl
  · intro r hr hfire
    have : getRec ([] : List (String × AuditRec)) r.metric = emptyAuditRec := rfl
    rw [this] at hfire
    rw [h r hr] at hfire
    exact Bool.false_ne_true hfire

/-- C7 (confirmed).  Every rule of the four issue extractors passes (does not
fire) on the default record an absent metric id produces, absent ids read as
that default record, each extractor's output is an order-preserving
selection (a sublist) of its rule table's messages in declaration order, and
an empty audits mapping — e.g. a probe dict with no audits key at all —
yields empty issue lists without error. -/
theorem c7_issue_extractors_missing_metric_and_order :
    (∀ (audits : List (String × AuditRec)) (r : IssueRule),
        r ∈ perfRules ++ seoRules ++ accessibilityRules ++ bestPracticesRules →
        audits.lookup r.metric = none →
        r.fires (getRec audits r.metric) = false)
    ∧ (∀ (audits : List (String × AuditRec)) (metric : String),
        match audits.lookup metric with
        | none => getRec audits metric = emptyAuditRec
        | some a => getRec audits metric = a)
    ∧ (∀ audits, List.Sublist (extract_performance_issues audits)
        (perfRules.map (fun r => r.message (getRec audits r.metric))))
    ∧ (∀ audits, List.Sublist (extract_seo_issues audits)
        (seoRules.map (fun r => r.message (getRec audits r.metric))))
    ∧ (∀ audits, List.Sublist (extract_accessibility_issues audits)
        (accessibilityRules.map (fun r => r.message (getRec audits r.metric))))
    ∧ (∀ audits, List.Sublist (extract_best_practices_issues audits)
        (bestPracticesRules.map (fun r => r.message (getRec audits r.metric))))
    ∧ extract_performance_issues [] = []
    ∧ extract_seo_issues [] = []
    ∧ extract_accessibility_issues [] = []
    ∧ extract_best_practices_issues [] = [] := by
  refine ⟨?_, ?_, ?_, ?_, ?_, ?_, ?_, ?_, ?_, ?_⟩
  · intro audits r hr hnone
    have hrec : getRec audits r.metric = emptyAuditRec := by
      rw [getRec, hnone]
      rfl
    rw [hrec]
    exact allRules_pass_on_empty r hr
  · intro audits metric
    cases h : audits.lookup metric <;> simp [getRec, h]
  · exact fun audits => runRules_sublist perfRules audits
  · exact fun audits => runRules_sublist seoRules audits
  · exact fun audits => runRules_sublist accessibilityRules audits
  · exact fun audits => runRules_sublist bestPracticesRules audits
  · exact runRules_on_empty_audits perfRules
      (fun r hr => allRules_pass_on_empty r
        (List.mem_append_left _ (List.mem_append_left _ (List.mem_append_left _ hr))))
  · exact runRules_on_empty_audits seoRules
      (fun r hr => allRules_pass_on_empty r
        (List.mem_append_left _ (List.mem_append_left _ (List.mem_append_right _ hr))))
  · exact runRules_on_empty_audits accessibilityRules
      (fun r hr => allRules_pass_on_empty r
        (List.mem_append_left _ (List.mem_append_right _ hr)))
  · exact runRules_on_empty_audits bestPracticesRules
      (fun r hr => allRules_pass_on_empty r (List.mem_append_right _ hr))

/-- C7 witness: the first-contentful-paint rule does not fire against an
audits mapping that lacks its metric id (the empty mapping). -/
theorem c7_issue_extractors_witness :
    fcpRule.fires (getRec ([] : List (String × AuditRec)) fcpRule.metric) = false :=
  c7_issue_extractors_missing_metric_and_order.1 [] fcpRule (by simp [perfRules]) rfl

theorem mem_pickTokens (gs : List (List Char)) (prev : Option Char) (t : List Char)
    (ht : t ∈ pickTokens prev gs) : t.all isAsciiAlpha = true ∧ 3 ≤ t.length := by
  induction gs generalizing prev with
  | nil => simp [pickTokens] at ht
  | cons g gs ih =>
    rw [pickTokens.eq_def] at ht
    simp only [] at ht
    split at ht
    · rcases List.mem_cons.mp ht with rfl | ht2
      · rename_i hguard
        simp only [Bool.and_eq_true, decide_eq_true_eq] at hguard
        exact ⟨hguard.1.1.1, hguard.2⟩
      · exact ih _ ht2
    · exact ih _ ht

theorem map_fst_bumpFreq (mp : List (String × ℕ)) (w : String) :
    (bumpFreq mp w).map Prod.fst = pySetInsert (mp.map Prod.fst) w := by
  unfold bumpFreq pySetInsert
  by_cases h : w ∈ mp.map Prod.fst
  · rw [if_pos h, if_pos h, List.map_map]
    refine List.map_congr_left (fun p _ => ?_)
    show (if p.1 = w then (p.1, p.2 + 1) else p).1 = p.1
    split <;> rfl
  · rw [if_neg h, if_neg h, List.map_append]
    rfl

theorem map_fst_foldl_bumpFreq (ws : List String) (mp : List (String × ℕ)) :
    (ws.foldl bumpFreq mp).map Prod.fst = ws.foldl pySetInsert (mp.map Prod.fst) := by
  induction ws generalizing mp with
  | nil => rfl
  | cons w ws ih => rw [List.foldl_cons, List.foldl_cons, ih, map_fst_bumpFreq]

theorem map_fst_freqList (ws : List String) : (freqList ws).map Prod.fst = firsts ws :=
  map_fst_foldl_bumpFreq ws []

theorem firsts_append_singleton (ws : List String) (w : String) :
    firsts (ws ++ [w]) = pySetInsert (firsts ws) w := by
  unfold firsts
  rw [List.foldl_append]
  rfl

theorem snd_bumpFreq (mp : List (String × ℕ)) (done : List String) (w : String)
    (hkeys : mp.map Prod.fst = firsts done)
    (hvals : ∀ p ∈ mp, p.2 = done.count p.1) :
    ∀ p ∈ bumpFreq mp w, p.2 = (done ++ [w]).count p.1 := by
  intro p hp
  unfold bumpFreq at hp
  by_cases h : w ∈ mp.map Prod.fst
  · rw [if_pos h] at hp
    rcases List.mem_map.mp hp with ⟨q, hq, hpq⟩
    by_cases hqw : q.1 = w
    · rw [if_pos hqw] at hpq
      subst hpq
      simp only [List.count_append, hqw]
      rw [hvals q hq, hqw]
      simp
    · rw [if_neg hqw] at hpq
      subst hpq
      rw [List.count_append, hvals q hq]
      have : List.count q.1 [w] = 0 := by
        simp [List.count_singleton]
        exact fun e => hqw e.symm
      omega
  · rw [if_neg h] at hp
    rcases List.mem_append.mp hp with hp2 | hp2
    · have hne : p.1 ≠ w := fun e => h (e ▸ List.mem_map_of_mem Prod.fst hp2)
      rw [List.count_append, hvals p hp2]
      have : List.count p.1 [w] = 0 := by
        simp [List.count_singleton]
        exact fun e => hne e.symm
      omega
    · rcases List.mem_singleton.mp hp2 with rfl
      have hw : w ∉ done := by
        rw [hkeys] at h
        exact fun hc => h ((mem_firsts done w).mpr hc)
      simp [List.count_append, List.count_eq_zero.mpr hw]

theorem snd_foldl_bumpFreq (ws : List String) (done : List String) (mp : List (String × ℕ))
    (hkeys : mp.map Prod.fst = firsts done)
    (hvals : ∀ p ∈ mp, p.2 = done.count p.1) :
    ∀ p ∈ ws.foldl bumpFreq mp, p.2 = (done ++ ws).count p.1 := by
  induction ws generalizing done mp with
  | nil => simpa using hvals
  | cons w ws ih =>
    rw [List.foldl_cons]
    have hkeys2 : (bumpFreq mp w).map Prod.fst = firsts (done ++ [w]) := by
      rw [map_fst_bumpFreq, hkeys, firsts_append_singleton]
    have hvals2 := snd_bumpFreq mp done w hkeys hvals
    have := ih (done ++ [w]) (bumpFreq mp w) hkeys2 hvals2
    intro p hp
    have hres := this p hp
    rwa [List.append_assoc, List.singleton_append] at hres

theorem snd_freqList (ws : List String) :
    ∀ p ∈ freqList ws, p.2 = ws.count p.1 := by
  have := snd_foldl_bumpFreq ws [] [] rfl (by simp)
  simpa using this

theorem indexOf_cons_of_ne (a b : String) (t : List String) (h : b ≠ a) :
    (a :: t).indexOf b = t.indexOf b + 1 := by
  simp [List.indexOf_cons, beq_eq_false_iff_ne.mpr (Ne.symm h)]

theorem nodup_pairwise_indexOf (L : List String) (h : L.Nodup) :
    L.Pairwise (fun a b => L.indexOf a < L.indexOf b) := by
  induction L with
  | nil => exact List.Pairwise.nil
  | cons a t ih =>
    rcases List.nodup_cons.mp h with ⟨ha, ht⟩
    refine List.Pairwise.cons ?_ ?_
    · intro b hb
      have hba : b ≠ a := fun e => ha (e ▸ hb)
      rw [List.indexOf_cons_self, indexOf_cons_of_ne a b t hba]
      exact Nat.succ_pos _
    · refine List.Pairwise.imp_of_mem ?_ (ih ht)
      intro x y hx hy hxy
      have hxa : x ≠ a := fun e => ha (e ▸ hx)
      have hya : y ≠ a := fun e => ha (e ▸ hy)
      rw [indexOf_cons_of_ne a x t hxa, indexOf_cons_of_ne a y t hya]
      exact Nat.succ_lt_succ hxy

theorem insertDesc_perm (x : String × ℕ) (l : List (String × ℕ)) :
    List.Perm (insertDesc x l) (x :: l) := by
  induction l with
  | nil => exact List.Perm.refl _
  | cons y ys ih =>
    rw [insertDesc]
    split
    · exact List.Perm.refl _
    · exact (ih.cons y).trans (List.Perm.swap x y ys)

theorem sortDesc_perm (l : List (String × ℕ)) : List.Perm (sortDesc l) l := by
  induction l with
  | nil => exact List.Perm.refl _
  | cons x xs ih =>
    rw [sortDesc]
    exact (insertDesc_perm x (sortDesc xs)).trans (ih.cons x)

theorem insertDesc_pairwise (idx : (String × ℕ) → ℕ) (x : String × ℕ)
    (l : List (String × ℕ))
    (hl : l.Pairwise (fun p q => p.2 > q.2 ∨ (p.2 = q.2 ∧ idx p < idx q)))
    (hx : ∀ y ∈ l, idx x < idx y) :
    (insertDesc x l).Pairwise (fun p q => p.2 > q.2 ∨ (p.2 = q.2 ∧ idx p < idx q)) := by
  induction l with
  | nil => simp [insertDesc]
  | cons y ys ih =>
    rw [insertDesc]
    rcases List.pairwise_cons.mp hl with ⟨hy, hys⟩
    split
    · rename_i hge
      refine List.Pairwise.cons ?_ hl
      intro z hz
      rcases List.mem_cons.mp hz with rfl | hz2
      · rcases Nat.eq_or_lt_of_le hge with heq | hlt
        · exact Or.inr ⟨heq.symm, hx z (List.mem_cons_self z ys)⟩
        · exact Or.inl hlt
      · have hyz := hy z hz2
        have hzy : z.2 ≤ y.2 := by
          rcases hyz with hlt | ⟨heq, _⟩
          · exact Nat.le_of_lt hlt
          · exact Nat.le_of_eq heq.symm
        have hz3 : z.2 ≤ x.2 := Nat.le_trans hzy hge
        rcases Nat.eq_or_lt_of_le hz3 with heq | hlt
        · exact Or.inr ⟨heq.symm, hx z (List.mem_cons_of_mem y hz2)⟩
        · exact Or.inl hlt
    · rename_i hnge
      refine List.Pairwise.cons ?_ (ih hys (fun y2 hy2 => hx y2 (List.mem_cons_of_mem y hy2)))
      intro z hz
      have hz2 : z = x ∨ z ∈ ys := List.mem_cons.mp ((insertDesc_perm x ys).mem_iff.mp hz)
      rcases hz2 with rfl | hz3
      · exact Or.inl (Nat.lt_of_not_le hnge)
      · exact hy z hz3

theorem sortDesc_pairwise (idx : (String × ℕ) → ℕ) (l : List (String × ℕ))
    (hl : l.Pairwise (fun p q => idx p < idx q)) :
    (sortDesc l).Pairwise (fun p q => p.2 > q.2 ∨ (p.2 = q.2 ∧ idx p < idx q)) := by
  induction l with
  | nil => exact List.Pairwise.nil
  | cons x xs ih =>
    rcases List.pairwise_cons.mp hl with ⟨hx, hxs⟩
    rw [sortDesc]
    exact insertDesc_pairwise idx x (sortDesc xs) (ih hxs)
      (fun y hy => hx y ((sortDesc_perm xs).mem_iff.mp hy))

/-- C8 (confirmed).  On fetch/parse failure `analyze_keywords` returns `[]`
rather than raising.  On success over title, meta description and document
text, the result is the 20-element prefix of the full ranking; the full
ranking is a permutation of the distinct tokens (first-occurrence list) of the
lowered text with stop words removed; every ranked word is an alphabetic
token of length at least 3 that is not a stop word; and the ranking is
ordered by frequency descending with ties in first-occurrence order. -/
theorem c8_keyword_ranking :
    (∀ e : String, analyze_keywords (Except.error e) = [])
    ∧ ∀ title meta body : String,
        analyze_keywords (Except.ok (title, meta, body))
          = ((sortDesc (freqList (analyze_keywords_tokens title meta body))).map
              Prod.fst).take 20
        ∧ List.Perm
            ((sortDesc (freqList (analyze_keywords_tokens title meta body))).map Prod.fst)
            (firsts (analyze_keywords_tokens title meta body))
        ∧ (∀ w ∈ (sortDesc (freqList (analyze_keywords_tokens title meta body))).map Prod.fst,
            w.toList.all isAsciiAlpha = true ∧ 3 ≤ w.length ∧ w ∉ stop_words)
        ∧ ((sortDesc (freqList (analyze_keywords_tokens title meta body))).map
            Prod.fst).Pairwise
            (fun a b =>
              (analyze_keywords_tokens title meta body).count a
                  > (analyze_keywords_tokens title meta body).count b
              ∨ ((analyze_keywords_tokens title meta body).count a
                    = (analyze_keywords_tokens title meta body).count b
                  ∧ (firsts (analyze_keywords_tokens title meta body)).indexOf a
                      < (firsts (analyze_keywords_tokens title meta body)).indexOf b)) := by
  constructor
  · intro e
    rfl
  · intro title meta body
    have hfullperm : List.Perm
        ((sortDesc (freqList (analyze_keywords_tokens title meta body))).map Prod.fst)
        (firsts (analyze_keywords_tokens title meta body)) := by
      have h1 := (sortDesc_perm (freqList (analyze_keywords_tokens title meta body))).map
        Prod.fst
      rwa [map_fst_freqList] at h1
    refine ⟨?_, hfullperm, ?_, ?_⟩
    · show analyze_keywords_ok title meta body = _
      unfold analyze_keywords_ok
      rw [List.map_take]
    · intro w hw
      have hwF : w ∈ firsts (analyze_keywords_tokens title meta body) :=
        hfullperm.mem_iff.mp hw
      have hw2 : w ∈ analyze_keywords_tokens title meta body :=
        (mem_firsts _ w).mp hwF
      rcases List.mem_filter.mp hw2 with ⟨htok, hstop⟩
      simp only [Bool.not_eq_true', decide_eq_false_iff_not] at hstop
      rcases List.mem_map.mp htok with ⟨r, hr, rfl⟩
      have hrfacts := mem_pickTokens _ _ _ hr
      exact ⟨hrfacts.1, hrfacts.2, hstop⟩
    · have hkeys := map_fst_freqList (analyze_keywords_tokens title meta body)
      have hpairF := nodup_pairwise_indexOf (firsts (analyze_keywords_tokens title meta body))
        (firsts_nodup _)
      have hfq : (freqList (analyze_keywords_tokens title meta body)).Pairwise
          (fun p q => (firsts (analyze_keywords_tokens title meta body)).indexOf p.1
            < (firsts (analyze_keywords_tokens title meta body)).indexOf q.1) := by
        have h2 : List.Pairwise
            (fun a b => (firsts (analyze_keywords_tokens title meta body)).indexOf a
              < (firsts (analyze_keywords_tokens title meta body)).indexOf b)
            ((freqList (analyze_keywords_tokens title meta body)).map Prod.fst) := by
          rw [hkeys]
          exact hpairF
        exact (@List.pairwise_map _ _ Prod.fst
          (fun a b => (firsts (analyze_keywords_tokens title meta body)).indexOf a
            < (firsts (analyze_keywords_tokens title meta body)).indexOf b)
          (freqList (analyze_keywords_tokens title meta body))).mp h2
      have hsorted := sortDesc_pairwise
        (fun p => (firsts (analyze_keywords_tokens title meta body)).indexOf p.1)
        (freqList (analyze_keywords_tokens title meta body)) hfq
      rw [List.pairwise_map]
      refine List.Pairwise.imp_of_mem ?_ hsorted
      intro p q hp hq hpq
      have hpv := snd_freqList _ p ((sortDesc_perm _).mem_iff.mp hp)
      have hqv := snd_freqList _ q ((sortDesc_perm _).mem_iff.mp hq)
      rcases hpq with hlt | ⟨heq, hidx⟩
      · refine Or.inl ?_
        rw [← hpv, ← hqv]
        exact hlt
      · refine Or.inr ⟨?_, hidx⟩
        rw [← hpv, ← hqv, heq]

/-- C8 witness: the failure clause and the top-20 clause of the ranking
theorem applied at concrete inputs. -/
theorem c8_keyword_ranking_witness :
    analyze_keywords (Except.error "ConnectionError") = []
    ∧ analyze_keywords (Except.ok ("tools seo", "seo tools", "best seo tools"))
        = ((sortDesc (freqList
            (analyze_keywords_tokens "tools seo" "seo tools" "best seo tools"))).map
            Prod.fst).take 20 :=
  ⟨c8_keyword_ranking.1 "ConnectionError",
   (c8_keyword_ranking.2 "tools seo" "seo tools" "best seo tools").1⟩
